import Mathlib

set_option maxHeartbeats 1000000
set_option maxRecDepth 8000

namespace KharonWhatsApp

/-! ### Data model (src/model.rs)

Shallow embedding of the WhatsApp withdrawal bot.  Monetary amounts (`f64` in
the source) are modelled as rationals; every numeric literal exercised by the
claims is exactly representable, so no floating-point rounding is observable
at those inputs.  `chrono::DateTime<Utc>` is modelled as seconds since epoch
(an `Int`); it only feeds message formatting that no claim inspects. -/

/-- UserState (src/model.rs lines 15-23). -/
inductive UserState
  | initial
  | accountCreation
  | bankDetailsEntry
  | offrampConfirmation
  | bankDetailsConfirmation
  | savedBankConfirmation
deriving DecidableEq

/-- BankDetails (src/model.rs lines 48-55): a saved, backend-persisted bank account. -/
structure BankDetails where
  bank_details_id : String
  bank_name : String
  account_number : String
  account_name : String
deriving DecidableEq

/-- BankVerificationResponse (src/model.rs lines 25-31): a freshly verified,
not-yet-saved bank account. -/
structure BankVerificationResponse where
  bank_name : String
  account_number : String
  account_name : String
  bank_code : String
deriving DecidableEq

/-- UserSessions (src/model.rs lines 3-13). -/
structure UserSessions where
  phone : String
  state : UserState
  account_id : Option String
  pending_amount : Option ℚ
  pending_currency : Option String
  controller_address : Option String
  pending_bank_details : Option BankDetails
  pending_bank_verification : Option BankVerificationResponse
deriving DecidableEq

/-- DisbursementDetails (src/model.rs lines 76-85). -/
structure DisbursementDetails where
  account_name : String
  account_number : String
  bank_name : String
  bank_code : String
  amount : ℚ
  currency : String
  crypto_tx_hash : String
deriving DecidableEq

/-- InitDisbursementResponse (src/model.rs lines 87-94). -/
structure InitDisbursementResponse where
  success : Bool
  message : String
  reference : String
  data : Option DisbursementDetails
  error : Option String
deriving DecidableEq

/-- TransactionStatus (src/model.rs lines 96-105).  `last_updated` is epoch
seconds; `metadata` (an opaque `serde_json::Value`) is modelled as a string. -/
structure TransactionStatus where
  transaction_id : String
  reference : String
  status : String
  amount : Option ℚ
  currency : Option String
  last_updated : Int
  metadata : Option String
deriving DecidableEq

/-- WebhookStatusResponse (src/model.rs lines 107-112). -/
structure WebhookStatusResponse where
  success : Bool
  data : Option TransactionStatus
  message : String
deriving DecidableEq

/-! ### String helpers mirroring the Rust standard-library calls used

All are written by structural recursion over the character list so that the
kernel can evaluate them on the concrete inputs of the claims. -/

/-- Does `pat` occur at the start of `l`? (Rust `str::starts_with`.) -/
def charsLeadWith : List Char → List Char → Bool
  | [], _ => true
  | _ :: _, [] => false
  | a :: pa, b :: lb => a = b && charsLeadWith pa lb

/-- Does `pat` occur as a contiguous run anywhere in the list?
(Rust `str::contains`.) -/
def charsContain (pat : List Char) : List Char → Bool
  | [] => charsLeadWith pat []
  | c :: rest => charsLeadWith pat (c :: rest) || charsContain pat rest

/-- Rust `str::contains`. -/
def strContains (s pat : String) : Bool :=
  charsContain pat.toList s.toList

/-- Split at every character satisfying `p`, keeping empty pieces
(Rust `str::split` semantics). -/
def splitCharsBy (p : Char → Bool) : List Char → List (List Char)
  | [] => [[]]
  | c :: rest =>
    let r := splitCharsBy p rest
    if p c then [] :: r
    else
      match r with
      | [] => [[c]]
      | g :: gs => (c :: g) :: gs

/-- Rust `str::split_whitespace`: split on whitespace, dropping empty pieces. -/
def splitWhitespace (s : String) : List String :=
  ((splitCharsBy Char.isWhitespace s.toList).map String.mk).filter (fun p => p ≠ "")

/-- Rust `str::split(c)` for a character separator, keeping empty pieces. -/
def splitOnChar (c : Char) (s : String) : List String :=
  (splitCharsBy (fun d => d = c) s.toList).map String.mk

/-- Rust `str::trim`: drop whitespace from both ends. -/
def strTrim (s : String) : String :=
  String.mk (((s.toList.dropWhile Char.isWhitespace).reverse.dropWhile
    Char.isWhitespace).reverse)

/-- Rust `str::to_lowercase` (ASCII: the inputs matched against are ASCII
keywords). -/
def strToLower (s : String) : String :=
  String.mk (s.toList.map Char.toLower)

/-- Rust `str::to_uppercase` (ASCII). -/
def strToUpper (s : String) : String :=
  String.mk (s.toList.map Char.toUpper)

/-- Rust `str::trim_start_matches("+")`: drop every leading `+`. -/
def trimLeadingPlus (s : String) : String :=
  String.mk (s.toList.dropWhile (fun c => c = '+'))

/-- One pass of Rust `str::replace` (non-empty pattern, leftmost scan,
non-overlapping); `fuel` bounds the recursion by the input length. -/
def replaceFuel (pat rep : List Char) : Nat → List Char → List Char
  | 0, l => l
  | _fuel + 1, [] => []
  | fuel + 1, c :: rest =>
    if pat ≠ [] ∧ charsLeadWith pat (c :: rest) then
      rep ++ replaceFuel pat rep fuel (List.drop pat.length (c :: rest))
    else
      c :: replaceFuel pat rep fuel rest

/-- Rust `str::replace`: replace every occurrence of `pat` by `rep`. -/
def replaceAll (s pat rep : String) : String :=
  String.mk (replaceFuel pat.toList rep.toList s.toList.length s.toList)

/-- Numeric value of a digit list (most significant first). -/
def digitsVal (l : List Char) : Nat :=
  l.foldl (fun a c => a * 10 + (c.toNat - 48)) 0

/-- Models `str::parse::<f64>` restricted to plain decimal numerals
(`[+-]? digits [. digits]?`, either side of the dot possibly empty but not
both).  Exponent, infinity and nan forms are omitted: no claim exercises
them, and every accepted numeral is exactly representable here. -/
def parseF64 (s : String) : Option ℚ :=
  let cs := s.toList
  let neg := charsLeadWith ['-'] cs
  let body := if charsLeadWith ['-'] cs ∨ charsLeadWith ['+'] cs then cs.drop 1 else cs
  let signed : ℚ → ℚ := fun q => if neg then -q else q
  match splitCharsBy (fun c => c = '.') body with
  | [w] =>
    if w ≠ [] ∧ w.all Char.isDigit then
      some (signed (digitsVal w : ℚ))
    else none
  | [w, f] =>
    if (w ≠ [] ∨ f ≠ []) ∧ w.all Char.isDigit ∧ f.all Char.isDigit then
      some (signed ((digitsVal w : ℚ) + (digitsVal f : ℚ) / (10 ^ f.length : ℚ)))
    else none
  | _ => none

/-- Rust `format!` `{:.2}` fixed-point rendering of an amount (round to two
decimal places).  Only feeds message text that no claim inspects. -/
def fmt2 (q : ℚ) : String :=
  let n : Int := round (q * 100)
  let sign := if n < 0 then "-" else ""
  let m := n.natAbs
  sign ++ toString (m / 100) ++ "." ++ (if m % 100 < 10 then "0" else "") ++ toString (m % 100)

/-! ### Side-effect trace and gateway oracle

Each handler is embedded as a pure function from an `Oracle` (the observable
outcome of each backend request this dispatch may issue) and the session to
the mutated session, the reply messages, and a trace of the side effects it
performs while running.  In `handle_message` (src/server.rs lines 78-129) the
handler runs while the session mutex guard is held; the guard is dropped only
before the reply send loop, so the handler trace is exactly the activity of
the critical section. -/

/-- The backend operations of the External Action Gateway (spec section 6),
one per HTTP request site in src/server.rs. -/
inductive GatewayOp
  | createAccount
  | createController
  | getAddress
  | getBalance
  | getRate
  | verifyBank
  | listBanks
  | saveBank
  | initiateWithdrawal
  | triggerPayment
  | getStatus
deriving DecidableEq

/-- One observable side effect of a dispatch: a gateway request actually sent,
an outbound `send_twilio_message` call, a `sleep`, or a `tokio::spawn`. -/
inductive Event
  | gatewayCall (op : GatewayOp)
  | sendMessage (dest body : String)
  | sleepMs (n : Nat)
  | spawnTask
deriving DecidableEq

/-- Outcome of `handle_account_creation`s two sequential requests
(src/server.rs lines 185-296), one constructor per control path. -/
inductive ACResult
  | buildErr
  | createNetErr
  | createHttpErr
  | ctrlNetErr
  | ctrlHttpErr
  | ctrlParseErr
  | ok (controller_address : String)
deriving DecidableEq

/-- Outcome of the address lookup in `handle_get_address`
(src/server.rs lines 298-351). -/
inductive AddrResult
  | buildErr
  | netErr
  | http404
  | httpOther
  | parseErr
  | noField
  | ok (address : String)
deriving DecidableEq

/-- Outcome of the balance lookup in `handle_get_balance`
(src/server.rs lines 353-421).  `ok` carries the optional `data.balance`
string field and the optional `data.token` field of the parsed JSON. -/
inductive BalResult
  | buildErr
  | netErr
  | http404
  | httpOther
  | parseErr
  | ok (balance_field : Option String) (token_field : Option String)
deriving DecidableEq

/-- Outcome of the rate lookup in `handle_withdraw_initiation`
(src/server.rs lines 430-484). -/
inductive RateResult
  | buildErr
  | netErr
  | httpErr
  | parseErr
  | noField
  | ok (rate : ℚ)
deriving DecidableEq

/-- Outcome of `verify_bank_details` (src/server.rs lines 651-734). -/
inductive VerifyResult
  | buildErr
  | netErr
  | http404
  | httpOther (statusText : String)
  | parseErr
  | parsedIncomplete
  | ok (v : BankVerificationResponse)
deriving DecidableEq

/-- Outcome of `get_user_bank_details` (src/server.rs lines 736-782). -/
inductive ListBanksResult
  | buildErr
  | netErr
  | http404
  | httpOther
  | parseErr
  | ok (banks : List BankDetails)
deriving DecidableEq

/-- Outcome of `save_bank_details_to_db` (src/server.rs lines 784-829). -/
inductive SaveResult
  | buildErr
  | netErr
  | httpFail
  | ok
deriving DecidableEq

/-- Outcome of the disbursement-initiation POST in `initiate_offramp_process`
(src/server.rs lines 893-917): `ok` carries the parsed
`InitDisbursementResponse`. -/
inductive OfframpInitResult
  | buildErr
  | netErr
  | httpFail
  | parseErr
  | ok (resp : InitDisbursementResponse)
deriving DecidableEq

/-- Outcome of `trigger_payment` (src/server.rs lines 988-1033). -/
inductive TPResult
  | buildErr
  | netErr
  | httpFail
  | ok
deriving DecidableEq

/-- The observable behaviour of the backend for one dispatch: what each
gateway request would return if issued. -/
structure Oracle where
  accountCreation : ACResult
  getAddress : AddrResult
  getBalance : BalResult
  getRate : RateResult
  verifyBank : VerifyResult
  listBanks : ListBanksResult
  saveBank : SaveResult
  offrampInit : OfframpInitResult
  triggerPayment : TPResult

/-! ### Per-state handlers (src/server.rs) -/

/-- clear_session (src/server.rs lines 1165-1171). -/
def clear_session (session : UserSessions) : UserSessions :=
  { session with
    state := UserState.initial
    pending_amount := none
    pending_currency := none
    pending_bank_verification := none
    pending_bank_details := none }

/-- handle_account_creation (src/server.rs lines 185-296).  The sends and the
800 ms sleep of the success path happen inside the handler, so they appear in
its trace; the client-build failure path returns before any request or send. -/
def handle_account_creation (o : Oracle) (_message : String) (session : UserSessions) :
    UserSessions × List String × List Event :=
  let fp := trimLeadingPlus session.phone
  let creating := Event.sendMessage fp
    "🔄 *Creating Your Account!*\n\nPlease wait while we set up your wallet..."
  match o.accountCreation with
  | .buildErr =>
    (session, ["❌ Account creation failed. Please try again."], [])
  | .createNetErr =>
    (session, ["❌ Account creation failed. Please try again."],
     [creating, Event.gatewayCall .createAccount])
  | .createHttpErr =>
    (session, ["❌ Account creation failed. Please try again."],
     [creating, Event.gatewayCall .createAccount])
  | .ctrlNetErr =>
    (session, ["❌ Account creation failed. Please try again."],
     [creating, Event.gatewayCall .createAccount, Event.gatewayCall .createController])
  | .ctrlHttpErr =>
    (session, ["❌ Account creation failed. Please contact support."],
     [creating, Event.gatewayCall .createAccount, Event.gatewayCall .createController])
  | .ctrlParseErr =>
    (session, ["❌ Account creation failed during controller setup. Please try again."],
     [creating, Event.gatewayCall .createAccount, Event.gatewayCall .createController])
  | .ok addr =>
    ({ session with controller_address := some addr, state := UserState.initial },
     [],
     [creating, Event.gatewayCall .createAccount, Event.gatewayCall .createController,
      Event.sendMessage fp addr, Event.sleepMs 800,
      Event.sendMessage fp ("🎉 *Account created successfully!*\n\n📱 *To withdraw crypto:*\n• `copy address` - Copy your wallet address above\n• `fund account` - Send crypto to your wallet address.\n• `withdraw` - Send crypto to your bank account.")])

/-- handle_get_address (src/server.rs lines 298-351). -/
def handle_get_address (o : Oracle) (_session : UserSessions) :
    List String × List Event :=
  match o.getAddress with
  | .buildErr => (["❌ Failed to connect to server. Please try again."], [])
  | .netErr =>
    (["❌ Failed to connect to server. Please try again."], [Event.gatewayCall .getAddress])
  | .http404 =>
    (["❌ No account found. Please create an account first with `create`."],
     [Event.gatewayCall .getAddress])
  | .httpOther =>
    (["❌ Failed to retrieve address. Please try again."], [Event.gatewayCall .getAddress])
  | .parseErr =>
    (["❌ Failed to retrieve address. Please try again."], [Event.gatewayCall .getAddress])
  | .noField =>
    (["❌ No wallet address found. Please create an account first with `create`."],
     [Event.gatewayCall .getAddress])
  | .ok addr =>
    ([addr, "💳 *Your Wallet Address:*\n\n⚠️ *Only send USDT/USDC (Starknet) to this address*"],
     [Event.gatewayCall .getAddress])

/-- get_token_display (src/server.rs lines 423-428). -/
def get_token_display (token : String) : String × String :=
  if strToLower token = "0x07d54bad6d6fcff799133a8c0b1fb8120876bb080d75cd601a5c68164d6f6d75" then
    ("💵", "USDT")
  else ("🪙", "TOKEN")

/-- handle_get_balance (src/server.rs lines 353-421). -/
def handle_get_balance (o : Oracle) (_session : UserSessions) :
    String × List Event :=
  match o.getBalance with
  | .buildErr => ("❌ Failed to connect to server. Please try again.", [])
  | .netErr =>
    ("❌ Failed to connect to server. Please try again.", [Event.gatewayCall .getBalance])
  | .http404 =>
    ("❌ No account found. Please create an account first with `create`.",
     [Event.gatewayCall .getBalance])
  | .httpOther =>
    ("❌ Failed to retrieve balance. Please try again.", [Event.gatewayCall .getBalance])
  | .parseErr =>
    ("❌ Failed to retrieve balance. Please try again.", [Event.gatewayCall .getBalance])
  | .ok balanceField tokenField =>
    match balanceField with
    | none =>
      ("💰 *Your Balance*\n\n🪙 USDT: 0.00\n🪙 USDC: 0.00\n\n💵 Total: $0.00",
       [Event.gatewayCall .getBalance])
    | some bs =>
      match parseF64 bs with
      | none => ("❌ Invalid balance format", [Event.gatewayCall .getBalance])
      | some balance =>
        let token := tokenField.getD "unknown"
        let ed := get_token_display token
        ("💰 *Your Balance*\n\n" ++ ed.1 ++ " " ++ ed.2 ++ ": " ++ fmt2 balance ++
           "\n\n💵 Total: $" ++ fmt2 balance,
         [Event.gatewayCall .getBalance])

/-- handle_withdraw_initiation (src/server.rs lines 430-484).  The transition
to `OfframpConfirmation` happens only when the rate lookup succeeds and
yields a `usd_ngn_rate` field. -/
def handle_withdraw_initiation (o : Oracle) (amount : ℚ) (crypto : String)
    (session : UserSessions) : String × UserSessions × List Event :=
  match o.getRate with
  | .buildErr => ("❌ Failed to connect to server. Please try again.", session, [])
  | .netErr =>
    ("❌ Failed to connect to server. Please try again.", session, [Event.gatewayCall .getRate])
  | .httpErr =>
    ("❌ Failed to get exchange rate. Please try again.", session, [Event.gatewayCall .getRate])
  | .parseErr =>
    ("❌ Failed to get exchange rate. Please try again.", session, [Event.gatewayCall .getRate])
  | .noField =>
    ("❌ Failed to get exchange rate. Please try again.", session, [Event.gatewayCall .getRate])
  | .ok rate =>
    let naira := amount * rate
    ("💸 *Withdraw Request*\n\nAmount: " ++ fmt2 amount ++ " " ++ crypto ++
       "\nRate: ₦" ++ fmt2 rate ++ " per " ++ crypto ++
       "\nYou\x27ll receive: ₦" ++ fmt2 naira ++
       "\n\nType `confirm` to proceed or `cancel` to abort.",
     { session with state := UserState.offrampConfirmation },
     [Event.gatewayCall .getRate])

/-- handle_commands (src/server.rs lines 131-183): the `Initial`-state
dispatcher.  The `create` arm mutates only the stored session state and
spawns a detached task over a clone of the session (lines 140-151); the
clone's later mutations are not part of this dispatch. -/
def handle_commands (o : Oracle) (message : String) (session : UserSessions) :
    UserSessions × List String × List Event :=
  match splitWhitespace message with
  | [] => (session, ["❓ Unknown command. Type `help` for available commands."], [])
  | cmd :: rest =>
    let msg := strToLower cmd
    if strContains msg "hi" ∨ strContains msg "hello" ∨ strContains msg "start" then
      (session,
       ["🟢 Welcome to *Kharon Pay*! 💰\n\nSend crypto to your bank in seconds.\n\n📱 *Commands:*\n• `create` - Create new account\n• `fund` - Deposit crypto to your wallet address\n• `withdraw` - Send crypto to your bank account\n• `balance` - Check crypto balance in your wallet\n• `help` - Show all commands\n\nWhat would you like to do?"],
       [])
    else if msg = "create" then
      ({ session with state := UserState.accountCreation }, [], [Event.spawnTask])
    else if msg = "address" then
      let r := handle_get_address o session
      (session, r.1, r.2)
    else if msg = "balance" then
      let r := handle_get_balance o session
      (session, [r.1], r.2)
    else if msg = "withdraw" then
      match rest with
      | amountStr :: cryptoStr :: _ =>
        match parseF64 amountStr with
        | some amount =>
          let crypto := strToUpper cryptoStr
          let s1 := { session with
                        pending_amount := some amount
                        pending_currency := some crypto }
          let r := handle_withdraw_initiation o amount crypto s1
          (r.2.1, [r.1], r.2.2)
        | none =>
          (session, ["❌ Invalid amount. Use format: `send [amount] [crypto] to [bank name]`"], [])
      | _ =>
        (session,
         ["💸 *Withdraw Format:*\n`send [amount] [crypto] to [bank name]`\n\n*Example:* `send 1 USDT to Opay`"],
         [])
    else if msg = "help" then
      (session,
       ["🔰 *Kharon Pay Help*\n\n*Commands:*\n• `create` - Create new account\n• `address` - Get your wallet address\n• `balance` - Check crypto balance\n• `send [amount] [crypto] to [bank name]` - Send to bank\n\n*Examples:*\n• `send 100 USDT to Opay`\n• `balance`\n• `address`"],
       [])
    else
      (session,
       ["❓ I didn\x27t understand that. Type `help` for available commands or `hi` to start."],
       [])

/-- get_user_bank_details (src/server.rs lines 736-782).  A 404 yields
`Ok([])`; the client-build failure path issues no request. -/
def get_user_bank_details (o : Oracle) :
    Except String (List BankDetails) × List Event :=
  match o.listBanks with
  | .buildErr => (Except.error "Failed to connect to server. Please try again.", [])
  | .netErr =>
    (Except.error "Failed to connect to server. Please try again.",
     [Event.gatewayCall .listBanks])
  | .http404 => (Except.ok [], [Event.gatewayCall .listBanks])
  | .httpOther =>
    (Except.error "Failed to retrieve bank details. Please try again.",
     [Event.gatewayCall .listBanks])
  | .parseErr =>
    (Except.error "Failed to parse bank details. Please try again.",
     [Event.gatewayCall .listBanks])
  | .ok banks => (Except.ok banks, [Event.gatewayCall .listBanks])

/-- verify_bank_details (src/server.rs lines 651-734). -/
def verify_bank_details (o : Oracle) :
    Except String BankVerificationResponse × List Event :=
  match o.verifyBank with
  | .buildErr => (Except.error "Failed to connect to server. Please try again.", [])
  | .netErr =>
    (Except.error "Failed to connect to server. Please try again.",
     [Event.gatewayCall .verifyBank])
  | .http404 =>
    (Except.error "Account not found. Please check your details and try again.",
     [Event.gatewayCall .verifyBank])
  | .httpOther st =>
    (Except.error ("Verification failed: " ++ st), [Event.gatewayCall .verifyBank])
  | .parseErr =>
    (Except.error "Failed to verify bank details. Please try again.",
     [Event.gatewayCall .verifyBank])
  | .parsedIncomplete =>
    (Except.error "Invalid bank details received. Please try again.",
     [Event.gatewayCall .verifyBank])
  | .ok v => (Except.ok v, [Event.gatewayCall .verifyBank])

/-- save_bank_details_to_db (src/server.rs lines 784-829). -/
def save_bank_details_to_db (o : Oracle) : Except String Unit × List Event :=
  match o.saveBank with
  | .buildErr => (Except.error "Failed to connect to server. Please try again.", [])
  | .netErr =>
    (Except.error "Failed to connect to server. Please try again.",
     [Event.gatewayCall .saveBank])
  | .httpFail =>
    (Except.error "Failed to save bank details. Please try again.",
     [Event.gatewayCall .saveBank])
  | .ok => (Except.ok (), [Event.gatewayCall .saveBank])

/-- initiate_offramp_process (src/server.rs lines 864-986).  The two pending
fields are checked with `ok_or_else`, yielding the distinct internal-error
texts of lines 870 and 874; on a parsed response with `success = false` the
response's own error text is propagated verbatim (line 920); a successful
trigger spawns the reconciliation task (line 964). -/
def initiate_offramp_process (o : Oracle) (session : UserSessions)
    (_bank_details : BankDetails) : Except String String × List Event :=
  match session.pending_amount with
  | none => (Except.error "Missing pending amount in session", [])
  | some _amount =>
  match session.pending_currency with
  | none => (Except.error "Missing pending currency in session", [])
  | some _crypto =>
  match o.offrampInit with
  | .buildErr => (Except.error "Failed to connect to server", [])
  | .netErr =>
    (Except.error "Failed to connect to server. Please try again.",
     [Event.gatewayCall .initiateWithdrawal])
  | .httpFail =>
    (Except.error "Failed to initiate withdrawal. Please try again, contact support if error persists.",
     [Event.gatewayCall .initiateWithdrawal])
  | .parseErr =>
    (Except.error "Invalid response from server. Try again.",
     [Event.gatewayCall .initiateWithdrawal])
  | .ok resp =>
    if resp.success = false then
      (Except.error (resp.error.getD "Offramp initialization failed due to unknown error."),
       [Event.gatewayCall .initiateWithdrawal])
    else
      match resp.data with
      | none =>
        (Except.error "Missing disbursement details in successful response.",
         [Event.gatewayCall .initiateWithdrawal])
      | some dd =>
        match o.triggerPayment with
        | .buildErr =>
          (Except.error "Failed to connect to payment server.",
           [Event.gatewayCall .initiateWithdrawal])
        | .netErr =>
          (Except.error "Failed to connect to payment server. Please try again.",
           [Event.gatewayCall .initiateWithdrawal, Event.gatewayCall .triggerPayment])
        | .httpFail =>
          (Except.error "Payment confirmation failed. Please contact support.",
           [Event.gatewayCall .initiateWithdrawal, Event.gatewayCall .triggerPayment])
        | .ok =>
          (Except.ok
            ("✅ *Withdrawal Successfully Initiated!*\n\nWe have successfully sent *" ++
             fmt2 dd.amount ++ " " ++ dd.currency ++ "* to your account:\n\n🏦 **Bank:** " ++
             dd.bank_name ++ "\n👤 **Name:** " ++ dd.account_name ++ "\n🔢 **Ref:** " ++
             resp.reference ++
             "\n\nThe funds should reflect in your account shortly.\n\n                        You will get a confirmation message once transaction is completed."),
           [Event.gatewayCall .initiateWithdrawal, Event.gatewayCall .triggerPayment,
            Event.spawnTask])

/-- execute_offramp (src/server.rs lines 831-862).  Line 832 is
`session.pending_amount.unwrap()`: an absent pending amount panics, which the
embedding renders as `none`.  On success the session is cleared (line 838);
on failure it is returned unchanged — the `Err` arm performs no mutation. -/
def execute_offramp (o : Oracle) (session : UserSessions)
    (bank_details : BankDetails) : Option (UserSessions × String × List Event) :=
  match session.pending_amount with
  | none => none
  | some amount =>
    let crypto := session.pending_currency.getD ""
    let r := initiate_offramp_process o session bank_details
    match r.1 with
    | Except.ok _ =>
      some (clear_session session,
        "✅ *Withdrawal Request Submitted!*\n\n📊 *Details:*\n• Amount: " ++
          fmt2 amount ++ " " ++ crypto ++ "\n• Bank: " ++ bank_details.bank_name ++
          "\n• Account: " ++ bank_details.account_number ++ " (" ++
          bank_details.account_name ++
          ")\n\n⏳ Processing time: 30-60 seconds\n📱 You\x27ll receive a confirmation message when completed, standby",
        r.2)
    | Except.error err =>
      some (session,
        "❌ *Withdrawal Failed*\n\n" ++ err ++ "\n\nPlease try again or contact support.",
        r.2)

/-- handle_offramp_confirmation (src/server.rs lines 512-549). -/
def handle_offramp_confirmation (o : Oracle) (message : String)
    (session : UserSessions) : UserSessions × String × List Event :=
  let ml := strToLower message
  if ml = "confirm" then
    let r := get_user_bank_details o
    match r.1 with
    | Except.ok banks =>
      match banks.head? with
      | some bank_details =>
        ({ session with
             pending_bank_details := some bank_details
             state := UserState.savedBankConfirmation },
         "🏦 *Your Saved Bank Details:*\n\nBank: " ++ bank_details.bank_name ++
           "\nAccount Name: " ++ bank_details.account_name ++
           "\nAccount Number: " ++ bank_details.account_number ++
           "\n\nProceed with this account?\nType `yes` to confirm or `no` to cancel.",
         r.2)
      | none =>
        ({ session with state := UserState.bankDetailsEntry },
         "🏦 *Bank Details Required*\n\nPlease provide your bank details in this format:\n\n`Bank Name, Account Number`\n\n*Example:* `Opay, 0123456789`",
         r.2)
    | Except.error e =>
      (session, "❌ Failed to check bank details: " ++ e, r.2)
  else if ml = "cancel" then
    (clear_session session,
     "❌ *Withdrawal Cancelled*\n\nYour withdrawal request has been cancelled. Type `send [amount] [crypto] to [bank name]` to start again.",
     [])
  else
    (session, "❓ Please type `confirm` to proceed or `cancel` to abort.", [])

/-- handle_new_bank_details_entry (src/server.rs lines 551-586).  Splits on
commas and trims each field; rejects unless there are exactly two fields and
the account number is at least 10 characters and all numeric.  (Byte length
and Unicode numerals coincide with character length and ASCII digits on the
ASCII inputs the spec exercises.) -/
def handle_new_bank_details_entry (o : Oracle) (message : String)
    (session : UserSessions) : UserSessions × String × List Event :=
  match (splitOnChar ',' message).map strTrim with
  | [_bank_name, account_number] =>
    if account_number.length < 10 ∨ ¬(account_number.toList.all Char.isDigit) then
      (session, "❌ Invalid account number. Must be at least 10 digits.", [])
    else
      let r := verify_bank_details o
      match r.1 with
      | Except.ok v =>
        ({ session with
             pending_bank_verification := some v
             state := UserState.bankDetailsConfirmation },
         "✅ *Account Verified!*\n\n🏦 Bank: " ++ v.bank_name ++
           "\n👤 Account Name: " ++ v.account_name ++
           "\n🔢 Account Number: " ++ v.account_number ++
           "\n\nIs this correct?\nType `yes` to confirm or `no` to re-enter.",
         r.2)
      | Except.error err =>
        (session,
         "❌ *Verification Failed*\n\n" ++ err ++
           "\n\nPlease check your bank details and try again.",
         r.2)
  | _ =>
    (session,
     "❌ Invalid format. Please provide bank details in this format:\n\n`Bank Name, Account Number`\n\n*Example:* `Opay, 0123456789`",
     [])

/-- handle_saved_bank_confirmation (src/server.rs lines 588-611).  `none`
models the panic that `execute_offramp` raises on an absent pending amount. -/
def handle_saved_bank_confirmation (o : Oracle) (message : String)
    (session : UserSessions) : Option (UserSessions × String × List Event) :=
  let ml := strToLower message
  if ml = "yes" then
    match session.pending_bank_details with
    | none => some (session, "❌ Bank details not found. Please start again.", [])
    | some bank_details => execute_offramp o session bank_details
  else if ml = "no" then
    some (clear_session session,
      "❌ *Withdrawal Cancelled*\n\nType `withdraw [amount] [crypto]` to start again.", [])
  else
    some (session, "❓ Please type `yes` to confirm or `no` to cancel.", [])

/-- handle_new_bank_confirmation (src/server.rs lines 613-649). -/
def handle_new_bank_confirmation (o : Oracle) (message : String)
    (session : UserSessions) : Option (UserSessions × String × List Event) :=
  let ml := strToLower message
  if ml = "yes" then
    match session.pending_bank_verification with
    | none =>
      some (session, "❌ Verification data not found. Please re-enter your bank details.", [])
    | some _v =>
      let rs := save_bank_details_to_db o
      match rs.1 with
      | Except.ok _ =>
        let rb := get_user_bank_details o
        match rb.1 with
        | Except.ok banks =>
          match banks.head? with
          | some bank_details =>
            let s1 := { session with pending_bank_verification := none }
            match execute_offramp o s1 bank_details with
            | none => none
            | some (s2, msg, ev) => some (s2, msg, rs.2 ++ rb.2 ++ ev)
          | none =>
            some (session,
              "❌ Failed to retrieve saved bank details (list was empty). Please contact support.",
              rs.2 ++ rb.2)
        | Except.error err =>
          some (session, "❌ Error retrieving bank details: " ++ err, rs.2 ++ rb.2)
      | Except.error err =>
        some (session, "❌ Failed to save bank details: " ++ err, rs.2)
  else if ml = "no" then
    some ({ session with
              state := UserState.bankDetailsEntry
              pending_bank_verification := none },
      "🔄 *Please re-enter Bank Details*\n\nPlease provide your bank details in this format:\n\n`Bank Name, Account Number`\n\n*Example:* `Opay, 0123456789`",
      [])
  else
    some (session, "❓ Please type `yes` to confirm or `no` to re-enter.", [])

/-! ### The session store and handle_message (src/server.rs lines 78-129) -/

/-- The session store (`HashMap<String, UserSessions>` behind a `Mutex`),
modelled as an association list keyed by phone. -/
abbrev SessionMap := List (String × UserSessions)

/-- The session created by `or_insert` for a fresh identifier
(src/server.rs lines 86-95). -/
def newSession (user_phone : String) : UserSessions :=
  { phone := user_phone
    state := UserState.initial
    account_id := none
    pending_amount := none
    pending_currency := none
    controller_address := none
    pending_bank_details := none
    pending_bank_verification := none }

/-- Store lookup. -/
def mapLookup : SessionMap → String → Option UserSessions
  | [], _ => none
  | (k, v) :: rest, key => if k = key then some v else mapLookup rest key

/-- Store update (insert or replace). -/
def mapInsert : SessionMap → String → UserSessions → SessionMap
  | [], key, v => [(key, v)]
  | (k, w) :: rest, key, v =>
    if k = key then (key, v) :: rest else (k, w) :: mapInsert rest key v

/-- The state match of handle_message (src/server.rs lines 97-117), run while
the session mutex guard is held.  `none` models a panic inside the critical
section. -/
def dispatchMessage (o : Oracle) (message_text : String) (session : UserSessions) :
    Option (UserSessions × List String × List Event) :=
  match session.state with
  | UserState.initial => some (handle_commands o message_text session)
  | UserState.accountCreation => some (handle_account_creation o message_text session)
  | UserState.offrampConfirmation =>
    let r := handle_offramp_confirmation o message_text session
    some (r.1, [r.2.1], r.2.2)
  | UserState.savedBankConfirmation =>
    match handle_saved_bank_confirmation o message_text session with
    | none => none
    | some (s, m, ev) => some (s, [m], ev)
  | UserState.bankDetailsEntry =>
    let r := handle_new_bank_details_entry o message_text session
    some (r.1, [r.2.1], r.2.2)
  | UserState.bankDetailsConfirmation =>
    match handle_new_bank_confirmation o message_text session with
    | none => none
    | some (s, m, ev) => some (s, [m], ev)

/-- The reply send loop of handle_message (src/server.rs lines 122-128): the
messages are sent in order with a 1000 ms sleep before every message after
the first. -/
def sendLoop (user_phone : String) : List String → List Event
  | [] => []
  | m :: rest =>
    Event.sendMessage user_phone m ::
      rest.flatMap (fun m2 => [Event.sleepMs 1000, Event.sendMessage user_phone m2])

/-- handle_message (src/server.rs lines 78-129).  Returns the updated store,
the events of the critical section (performed while the session mutex guard
is held), and the events performed after `drop(session_guard)`; `none` models
a panic.  The mutation is committed to the store at the end of the critical
section, before the guard is dropped. -/
def handle_message (o : Oracle) (user_phone message_text : String)
    (store : SessionMap) : Option (SessionMap × List Event × List Event) :=
  let session := (mapLookup store user_phone).getD (newSession user_phone)
  match dispatchMessage o message_text session with
  | none => none
  | some (s2, msgs, devents) =>
    some (mapInsert store user_phone s2, devents, sendLoop user_phone msgs)

/-! ### Webhook boundary (src/server.rs lines 23-76) -/

/-- The fields of the parsed url-encoded form that
`handle_twilio_webhook` reads.  Per the spec's inbound boundary, a delivery
carries at minimum a sender identifier; `fromField` is optional here because
the code has an explicit branch for its absence. -/
structure WebhookForm where
  smsStatus : Option String
  messageStatus : Option String
  fromField : Option String
  body : Option String

/-- The HTTP reply of the webhook route. -/
inductive WebhookHttpResponse
  | okXml (body : String)
  | badRequest (body : String)
deriving DecidableEq

/-- The fixed empty TwiML acknowledgement (src/server.rs lines 41-43 etc.). -/
def emptyTwiml : String :=
  "<?xml version=\"1.0\" encoding=\"UTF-8\"?><Response></Response>"

/-- The terminal delivery-status values filtered out
(src/server.rs lines 37-40). -/
def terminalStatuses : List String :=
  ["delivered", "read", "sent", "failed", "undelivered"]

/-- `form_data.get("SmsStatus").or(form_data.get("MessageStatus"))`
(src/server.rs lines 33-35). -/
def statusField (form : WebhookForm) : Option String :=
  match form.smsStatus with
  | some s => some s
  | none => form.messageStatus

/-- Whether the status filter of src/server.rs lines 33-45 discards the
delivery. -/
def statusFiltered (form : WebhookForm) : Bool :=
  match statusField form with
  | some st => terminalStatuses.contains st
  | none => false

/-- handle_twilio_webhook (src/server.rs lines 23-76) after form parsing.
Returns the HTTP reply together with the dispatch hand-off
(normalized phone, body) when the delivery is processed; `none` means the
delivery is discarded without processing.  `botNumber` is the
`T_WHATSAPP_NUMBER` configuration value. -/
def handle_twilio_webhook (botNumber : String) (form : WebhookForm) :
    WebhookHttpResponse × Option (String × String) :=
  if statusFiltered form then
    (WebhookHttpResponse.okXml emptyTwiml, none)
  else
    match form.fromField with
    | none => (WebhookHttpResponse.badRequest "Missing 'From' field", none)
    | some fromValue =>
      let body_text := form.body.getD ""
      if strTrim body_text = "" then
        (WebhookHttpResponse.okXml emptyTwiml, none)
      else
        let user_phone := replaceAll fromValue "whatsapp:" ""
        if replaceAll user_phone "+" "" = replaceAll (replaceAll botNumber "whatsapp:" "") "+" "" then
          (WebhookHttpResponse.okXml emptyTwiml, none)
        else
          (WebhookHttpResponse.okXml emptyTwiml, some (user_phone, body_text))

/-! ### Reconciliation task (src/server.rs lines 1035-1163) -/

/-- Outcome of one status poll (src/server.rs lines 1060-1132): the request
fails or returns a non-success status (`noReply`), the JSON fails to parse
(`badJson`), or a parsed `WebhookStatusResponse` is obtained. -/
inductive PollHttp
  | noReply
  | badJson
  | reply (r : WebhookStatusResponse)
deriving DecidableEq

/-- A user notification sent by the reconciliation task.  The message bodies
(src/server.rs lines 1085-1102 and 1115-1122) involve chrono time formatting
and are not inspected by any claim, so only the notification kind and its
identifying fields are recorded. -/
inductive Notif
  | completion (reference : String)
  | failure (reference status : String)
deriving DecidableEq

/-- How the poll loop body reacts to one response
(src/server.rs lines 1067-1131): a parsed successful response whose data
reports status `completed`/`successful` (case-insensitive) terminates with a
completion notification, `failed`/`cancelled` with a failure notification;
everything else (absent, malformed, non-success, dataless, or non-terminal)
falls through and keeps polling. -/
inductive PollDecision
  | keepPolling
  | completed (d : TransactionStatus)
  | failedTx (d : TransactionStatus)
deriving DecidableEq

/-- Classify one poll response exactly as the loop body does. -/
def pollDecision (r : PollHttp) : PollDecision :=
  match r with
  | .reply resp =>
    if resp.success then
      match resp.data with
      | some d =>
        let st := strToLower d.status
        if st = "completed" ∨ st = "successful" then PollDecision.completed d
        else if st = "failed" ∨ st = "cancelled" then PollDecision.failedTx d
        else PollDecision.keepPolling
      | none => PollDecision.keepPolling
    else PollDecision.keepPolling
  | _ => PollDecision.keepPolling

/-- Summary of a reconciliation-task run: how many polls were made, how many
2-second inter-poll sleeps happened, which notifications were sent, and the
task's result. -/
structure PollOutcome where
  polls : Nat
  sleeps : Nat
  notifs : List Notif
  result : Except String Unit

/-- The poll interval in seconds (src/server.rs line 1048). -/
def poll_interval_secs : Nat := 2

/-- The attempt budget `(max_wait_minutes * 60) / 3`
(src/server.rs line 1049, integer division). -/
def max_attempts (max_wait_minutes : Nat) : Nat :=
  max_wait_minutes * 60 / 3

/-- The `while attempts < max_attempts` loop of src/server.rs lines
1057-1137, by recursion on the remaining attempts.  `respAt n` is the
response to the (n+1)-th poll; the trailing `sleep` happens only when
attempts remain (line 1134). -/
def pollGo (respAt : Nat → PollHttp) (timeoutMsg : String) :
    Nat → Nat → PollOutcome
  | _done, 0 => { polls := 0, sleeps := 0, notifs := [], result := Except.error timeoutMsg }
  | done, remaining + 1 =>
    match pollDecision (respAt done) with
    | PollDecision.completed d =>
      { polls := 1, sleeps := 0, notifs := [Notif.completion d.reference],
        result := Except.ok () }
    | PollDecision.failedTx d =>
      { polls := 1, sleeps := 0, notifs := [Notif.failure d.reference d.status],
        result := Except.error ("Transaction failed: " ++ d.status) }
    | PollDecision.keepPolling =>
      let rest := pollGo respAt timeoutMsg (done + 1) remaining
      { polls := rest.polls + 1,
        sleeps := rest.sleeps + (if remaining = 0 then 0 else 1),
        notifs := rest.notifs,
        result := rest.result }

/-- poll_and_notify_on_completion (src/server.rs lines 1035-1143). -/
def poll_and_notify_on_completion (respAt : Nat → PollHttp)
    (max_wait_minutes : Nat) : PollOutcome :=
  pollGo respAt
    ("Polling timed out after " ++ toString max_wait_minutes ++ " minutes")
    0 (max_attempts max_wait_minutes)

/-- start_transaction_polling_task (src/server.rs lines 1145-1163): spawns
the poll loop with a 30-minute wait budget. -/
def start_transaction_polling_task (respAt : Nat → PollHttp) : PollOutcome :=
  poll_and_notify_on_completion respAt 30

/-! ### Helper lemmas -/

/-- Looking up the key just inserted yields the inserted session. -/
theorem mapLookup_mapInsert_self (m : SessionMap) (k : String) (v : UserSessions) :
    mapLookup (mapInsert m k v) k = some v := by
  induction m with
  | nil => simp [mapInsert, mapLookup]
  | cons p rest ih =>
    obtain ⟨k2, v2⟩ := p
    by_cases h : k2 = k
    · simp [mapInsert, mapLookup, h]
    · simp [mapInsert, mapLookup, h, ih]

/-- Every event emitted by the reply send loop is an outbound send or an
inter-send sleep. -/
theorem sendLoop_only_sends (user_phone : String) (msgs : List String) (e : Event)
    (he : e ∈ sendLoop user_phone msgs) :
    (∃ d b, e = Event.sendMessage d b) ∨ ∃ n, e = Event.sleepMs n := by
  cases msgs with
  | nil => simp [sendLoop] at he
  | cons m rest =>
    simp only [sendLoop, List.mem_cons] at he
    rcases he with h | h
    · exact Or.inl ⟨user_phone, m, h⟩
    · rcases List.mem_flatMap.mp h with ⟨m2, _, hm⟩
      simp only [List.mem_cons, List.mem_singleton] at hm
      rcases hm with h2 | h2 | h2
      · exact Or.inr ⟨1000, h2⟩
      · exact Or.inl ⟨user_phone, m2, h2⟩
      · cases h2

/-- Single unfolding step of the poll loop with zero remaining attempts. -/
theorem pollGo_zero (respAt : Nat → PollHttp) (t : String) (done : Nat) :
    pollGo respAt t done 0 =
      { polls := 0, sleeps := 0, notifs := [], result := Except.error t } := rfl

/-- Single unfolding step of the poll loop with remaining attempts. -/
theorem pollGo_succ (respAt : Nat → PollHttp) (t : String) (done r : Nat) :
    pollGo respAt t done (r + 1) =
      match pollDecision (respAt done) with
      | PollDecision.completed d =>
        { polls := 1, sleeps := 0, notifs := [Notif.completion d.reference],
          result := Except.ok () }
      | PollDecision.failedTx d =>
        { polls := 1, sleeps := 0, notifs := [Notif.failure d.reference d.status],
          result := Except.error ("Transaction failed: " ++ d.status) }
      | PollDecision.keepPolling =>
        let rest := pollGo respAt t (done + 1) r
        { polls := rest.polls + 1,
          sleeps := rest.sleeps + (if r = 0 then 0 else 1),
          notifs := rest.notifs,
          result := rest.result } := rfl

/-- If the first `n` responses all keep the loop polling, it runs its whole
budget of `n` attempts, sleeps between consecutive attempts only, sends
nothing, and times out. -/
theorem pollGo_keep (respAt : Nat → PollHttp) (t : String) :
    ∀ (n done : Nat),
      (∀ j, j < n → pollDecision (respAt (done + j)) = PollDecision.keepPolling) →
      pollGo respAt t done n =
        { polls := n, sleeps := n - 1, notifs := [], result := Except.error t } := by
  intro n
  induction n with
  | zero => intro done _; rfl
  | succ n ih =>
    intro done h
    have h0 : pollDecision (respAt done) = PollDecision.keepPolling := by
      simpa using h 0 (Nat.succ_pos n)
    have hrest : pollGo respAt t (done + 1) n =
        { polls := n, sleeps := n - 1, notifs := [], result := Except.error t } := by
      refine ih (done + 1) ?_
      intro j hj
      have hh := h (j + 1) (Nat.succ_lt_succ hj)
      have harg : done + (j + 1) = done + 1 + j := by omega
      rwa [harg] at hh
    rw [pollGo_succ]
    simp only [h0, hrest, PollOutcome.mk.injEq, true_and, and_true]
    split <;> omega

/-- If the first `k` responses keep polling and the `(k+1)`-th reports a
completion status, the loop makes exactly `k+1` polls, sleeps `k` times,
sends exactly one completion notification, and terminates successfully. -/
theorem pollGo_completed (respAt : Nat → PollHttp) (t : String) (d : TransactionStatus) :
    ∀ (k m done : Nat),
      (∀ j, j < k → pollDecision (respAt (done + j)) = PollDecision.keepPolling) →
      pollDecision (respAt (done + k)) = PollDecision.completed d →
      pollGo respAt t done (k + m + 1) =
        { polls := k + 1, sleeps := k, notifs := [Notif.completion d.reference],
          result := Except.ok () } := by
  intro k
  induction k with
  | zero =>
    intro m done _ hc
    have h0 : pollDecision (respAt done) = PollDecision.completed d := by
      simpa using hc
    have hz : (0 : Nat) + m + 1 = m + 1 := by omega
    rw [hz, pollGo_succ]
    simp only [h0]
  | succ k ih =>
    intro m done h hc
    have h0 : pollDecision (respAt done) = PollDecision.keepPolling := by
      simpa using h 0 (Nat.succ_pos k)
    have hrest : pollGo respAt t (done + 1) (k + m + 1) =
        { polls := k + 1, sleeps := k, notifs := [Notif.completion d.reference],
          result := Except.ok () } := by
      refine ih m (done + 1) ?_ ?_
      · intro j hj
        have hh := h (j + 1) (Nat.succ_lt_succ hj)
        have harg : done + (j + 1) = done + 1 + j := by omega
        rwa [harg] at hh
      · have harg : done + (k + 1) = done + 1 + k := by omega
        rwa [harg] at hc
    have hfuel : k + 1 + m + 1 = (k + m + 1) + 1 := by omega
    rw [hfuel, pollGo_succ]
    simp only [h0, hrest, PollOutcome.mk.injEq, true_and, and_true]
    split <;> omega

/-- Failure analogue of `pollGo_completed`: the first terminal response being
a failure/cancellation yields exactly one failure notification and an error
result. -/
theorem pollGo_failed (respAt : Nat → PollHttp) (t : String) (d : TransactionStatus) :
    ∀ (k m done : Nat),
      (∀ j, j < k → pollDecision (respAt (done + j)) = PollDecision.keepPolling) →
      pollDecision (respAt (done + k)) = PollDecision.failedTx d →
      pollGo respAt t done (k + m + 1) =
        { polls := k + 1, sleeps := k, notifs := [Notif.failure d.reference d.status],
          result := Except.error ("Transaction failed: " ++ d.status) } := by
  intro k
  induction k with
  | zero =>
    intro m done _ hc
    have h0 : pollDecision (respAt done) = PollDecision.failedTx d := by
      simpa using hc
    have hz : (0 : Nat) + m + 1 = m + 1 := by omega
    rw [hz, pollGo_succ]
    simp only [h0]
  | succ k ih =>
    intro m done h hc
    have h0 : pollDecision (respAt done) = PollDecision.keepPolling := by
      simpa using h 0 (Nat.succ_pos k)
    have hrest : pollGo respAt t (done + 1) (k + m + 1) =
        { polls := k + 1, sleeps := k, notifs := [Notif.failure d.reference d.status],
          result := Except.error ("Transaction failed: " ++ d.status) } := by
      refine ih m (done + 1) ?_ ?_
      · intro j hj
        have hh := h (j + 1) (Nat.succ_lt_succ hj)
        have harg : done + (j + 1) = done + 1 + j := by omega
        rwa [harg] at hh
      · have harg : done + (k + 1) = done + 1 + k := by omega
        rwa [harg] at hc
    have hfuel : k + 1 + m + 1 = (k + m + 1) + 1 := by omega
    rw [hfuel, pollGo_succ]
    simp only [h0, hrest, PollOutcome.mk.injEq, true_and, and_true]
    split <;> omega

/-- The loop never exceeds its fuel: at most `n` polls and `n - 1` sleeps. -/
theorem pollGo_le (respAt : Nat → PollHttp) (t : String) :
    ∀ (n done : Nat),
      (pollGo respAt t done n).polls ≤ n ∧ (pollGo respAt t done n).sleeps ≤ n - 1 := by
  intro n
  induction n with
  | zero => intro done; exact ⟨Nat.le_refl 0, Nat.le_refl 0⟩
  | succ n ih =>
    intro done
    obtain ⟨h1, h2⟩ := ih (done + 1)
    rw [pollGo_succ]
    rcases hd : pollDecision (respAt done) with _ | d | d <;> simp only [hd]
    · constructor
      · dsimp only
        omega
      · dsimp only
        split <;> omega
    · exact ⟨by omega, by omega⟩
    · exact ⟨by omega, by omega⟩

/-! ### Concrete sample data used by witnesses and counterexamples -/

/-- A saved bank account as returned by the bank-list gateway. -/
def bdSample : BankDetails :=
  { bank_details_id := "bd-1", bank_name := "Opay"
    account_number := "0123456789", account_name := "ADA LOVE" }

/-- A bank verification result as returned by the verification gateway. -/
def bvSample : BankVerificationResponse :=
  { bank_name := "Opay", account_number := "01234567890"
    account_name := "ADA LOVE", bank_code := "100" }

/-- Disbursement details of a successful initiation response. -/
def ddSample : DisbursementDetails :=
  { account_name := "ADA LOVE", account_number := "0123456789", bank_name := "Opay"
    bank_code := "100", amount := 8000, currency := "NGN", crypto_tx_hash := "0xtx" }

/-- A backend where every operation succeeds. -/
def oBase : Oracle :=
  { accountCreation := ACResult.ok "0xCTRL"
    getAddress := AddrResult.ok "0xADDR"
    getBalance := BalResult.ok (some "12.5") (some "tok")
    getRate := RateResult.ok 1500
    verifyBank := VerifyResult.ok bvSample
    listBanks := ListBanksResult.ok []
    saveBank := SaveResult.ok
    offrampInit := OfframpInitResult.ok
      { success := true, message := "ok", reference := "ref-1", data := some ddSample
        error := none }
    triggerPayment := TPResult.ok }

/-- A backend where disbursement initiation parses but reports a business
failure with its own error text. -/
def oInitFail : Oracle :=
  { oBase with
      offrampInit := OfframpInitResult.ok
        { success := false, message := "", reference := "ref-1", data := none
          error := some "insufficient liquidity" } }

/-- A backend where the disbursement-initiation request fails at the network
layer. -/
def oNetFail : Oracle :=
  { oBase with offrampInit := OfframpInitResult.netErr }

/-- A session mid-withdrawal, waiting in `OfframpConfirmation` with 5 USDT
pending. -/
def sessionOfframp5 : UserSessions :=
  { phone := "u1", state := UserState.offrampConfirmation, account_id := none
    pending_amount := some 5, pending_currency := some "USDT"
    controller_address := none, pending_bank_details := none
    pending_bank_verification := none }

/-- A session in `SavedBankConfirmation` with 5 USDT pending and a selected
saved bank. -/
def sessionSaved5 : UserSessions :=
  { sessionOfframp5 with
      state := UserState.savedBankConfirmation
      pending_bank_details := some bdSample }

/-- The invariant-violating session of claim C3: `SavedBankConfirmation`
with a selected bank but no pending amount. -/
def sessionNoAmount : UserSessions :=
  { sessionSaved5 with pending_amount := none }

/-! ### C1 -/

/-- C1, counterexample.  The claim states that the session mutex guard is
released before any External Action Gateway call.  It is false: dispatching
`confirm` from `OfframpConfirmation` issues the saved-bank-list gateway call
inside the critical section — the second component returned by
`handle_message` is the event list of the critical section (the code drops
the guard only before the reply send loop, src/server.rs line 120), and it
contains the gateway call. -/
theorem C1_counterexample_gateway_call_under_lock :
    handle_message oBase "u1" "confirm" [("u1", sessionOfframp5)] =
      some ([("u1", { sessionOfframp5 with state := UserState.bankDetailsEntry })],
        [Event.gatewayCall GatewayOp.listBanks],
        [Event.sendMessage "u1"
          "🏦 *Bank Details Required*\n\nPlease provide your bank details in this format:\n\n`Bank Name, Account Number`\n\n*Example:* `Opay, 0123456789`"]) ∧
    Event.gatewayCall GatewayOp.listBanks ∈ [Event.gatewayCall GatewayOp.listBanks] :=
  ⟨rfl, List.mem_singleton.mpr rfl⟩

/-- C1, amended.  What does hold: the session lock is released before the
reply send loop runs, so no External Action Gateway call happens after the
guard is dropped — every post-release event is an outbound send or an
inter-send sleep.  (Gateway calls do occur while the lock is held, as the
counterexample shows.) -/
theorem C1_lock_released_before_send_loop
    (o : Oracle) (user_phone message_text : String) (store : SessionMap)
    (st : SessionMap) (devents postEvents : List Event)
    (h : handle_message o user_phone message_text store =
          some (st, devents, postEvents)) :
    (∀ op : GatewayOp, Event.gatewayCall op ∉ postEvents) ∧
    ∀ e ∈ postEvents,
      (∃ d b, e = Event.sendMessage d b) ∨ ∃ n, e = Event.sleepMs n := by
  unfold handle_message at h
  simp only [] at h
  rcases hd : dispatchMessage o message_text
      ((mapLookup store user_phone).getD (newSession user_phone)) with _ | ⟨s2, msgs, devs⟩
  · rw [hd] at h
    exact absurd h (by simp)
  · rw [hd] at h
    simp only [Option.some.injEq, Prod.mk.injEq] at h
    obtain ⟨-, -, hpost⟩ := h
    subst hpost
    constructor
    · intro op hmem
      rcases sendLoop_only_sends user_phone msgs _ hmem with ⟨d, b, he⟩ | ⟨n, he⟩ <;>
        cases he
    · intro e he
      exact sendLoop_only_sends user_phone msgs e he

/-- C1, witness for the amended theorem at a concrete input. -/
theorem C1_witness_help_dispatch :
    (∀ op : GatewayOp, Event.gatewayCall op ∉
      [Event.sendMessage "u1"
        "🔰 *Kharon Pay Help*\n\n*Commands:*\n• `create` - Create new account\n• `address` - Get your wallet address\n• `balance` - Check crypto balance\n• `send [amount] [crypto] to [bank name]` - Send to bank\n\n*Examples:*\n• `send 100 USDT to Opay`\n• `balance`\n• `address`"]) ∧
    ∀ e ∈ ([Event.sendMessage "u1"
        "🔰 *Kharon Pay Help*\n\n*Commands:*\n• `create` - Create new account\n• `address` - Get your wallet address\n• `balance` - Check crypto balance\n• `send [amount] [crypto] to [bank name]` - Send to bank\n\n*Examples:*\n• `send 100 USDT to Opay`\n• `balance`\n• `address`"] : List Event),
      (∃ d b, e = Event.sendMessage d b) ∨ ∃ n, e = Event.sleepMs n :=
  C1_lock_released_before_send_loop oBase "u1" "help" [] _ _ _ rfl

/-! ### C2 -/

/-- C2, counterexample.  The claim states that a failed disbursement
initiation clears the session exactly as on success.  It is false: on
failure `execute_offramp` returns the session unchanged — here it stays in
`SavedBankConfirmation` with both pending fields still set — while the
gateway's error text is reported. -/
theorem C2_counterexample_failure_keeps_session :
    execute_offramp oInitFail sessionSaved5 bdSample =
      some (sessionSaved5,
        "❌ *Withdrawal Failed*\n\ninsufficient liquidity\n\nPlease try again or contact support.",
        [Event.gatewayCall GatewayOp.initiateWithdrawal]) ∧
    sessionSaved5.state ≠ UserState.initial ∧
    sessionSaved5.pending_amount ≠ none ∧
    sessionSaved5.pending_currency ≠ none :=
  ⟨rfl, by decide, by decide, by decide⟩

/-- C2, amended.  When withdrawal execution fails at the
disbursement-initiation gateway, the user receives the gateway's error text
verbatim, but the session is NOT cleared: it is returned exactly as it was
(state and pending fields unchanged), so the confirmation state remains
live.  Only the success path clears the session. -/
theorem C2_failure_reports_error_keeps_session
    (o : Oracle) (session : UserSessions) (bank_details : BankDetails)
    (amount : ℚ) (err : String)
    (hamt : session.pending_amount = some amount)
    (hfail : (initiate_offramp_process o session bank_details).1 = Except.error err) :
    execute_offramp o session bank_details =
      some (session,
        "❌ *Withdrawal Failed*\n\n" ++ err ++ "\n\nPlease try again or contact support.",
        (initiate_offramp_process o session bank_details).2) := by
  unfold execute_offramp
  rw [hamt]
  simp only [hfail]

/-- C2, witness at a concrete input: network failure of the initiation
request. -/
theorem C2_witness_netfail :
    execute_offramp oNetFail sessionSaved5 bdSample =
      some (sessionSaved5,
        "❌ *Withdrawal Failed*\n\nFailed to connect to server. Please try again.\n\nPlease try again or contact support.",
        (initiate_offramp_process oNetFail sessionSaved5 bdSample).2) :=
  C2_failure_reports_error_keeps_session oNetFail sessionSaved5 bdSample 5
    "Failed to connect to server. Please try again." rfl rfl

/-! ### C3 -/

/-- C3: the claim says an absent pending amount at withdrawal execution is
reported as a distinct internal-error message and never panics.  The code
disagrees: `execute_offramp` (src/server.rs line 832) calls `.unwrap()` on
`pending_amount` and panics (modelled as `none`), although
`initiate_offramp_process` does contain the graceful distinct message — a
dead defence, unreachable through `execute_offramp` for the amount field. -/
theorem C3_missing_amount_panics :
    handle_saved_bank_confirmation oBase "yes" sessionNoAmount = none ∧
    execute_offramp oBase sessionNoAmount bdSample = none ∧
    (initiate_offramp_process oBase sessionNoAmount bdSample).1 =
      Except.error "Missing pending amount in session" :=
  ⟨rfl, rfl, rfl⟩

/-! ### C4 -/

/-- C4: the reconciliation poll loop.  (1) If the first terminal response,
within the attempt budget, reports a completion status, the task makes
exactly that many polls, sends exactly one completion notification, and
terminates successfully.  (2) If it reports a failure/cancellation status,
the task sends exactly one failure notification and terminates with an
error.  (3) If every response within the budget is absent, malformed,
non-success or non-terminal (all classified `keepPolling`), the task makes
exactly its budget of polls, sends no notification, and terminates with the
timeout error.  (4) Absent and malformed responses are classified
`keepPolling`, i.e. they continue polling. -/
theorem C4_poll_loop_terminal_behavior :
    (∀ (respAt : Nat → PollHttp) (w k : Nat) (d : TransactionStatus),
      k < max_attempts w →
      (∀ j, j < k → pollDecision (respAt j) = PollDecision.keepPolling) →
      pollDecision (respAt k) = PollDecision.completed d →
      poll_and_notify_on_completion respAt w =
        { polls := k + 1, sleeps := k, notifs := [Notif.completion d.reference],
          result := Except.ok () }) ∧
    (∀ (respAt : Nat → PollHttp) (w k : Nat) (d : TransactionStatus),
      k < max_attempts w →
      (∀ j, j < k → pollDecision (respAt j) = PollDecision.keepPolling) →
      pollDecision (respAt k) = PollDecision.failedTx d →
      poll_and_notify_on_completion respAt w =
        { polls := k + 1, sleeps := k, notifs := [Notif.failure d.reference d.status],
          result := Except.error ("Transaction failed: " ++ d.status) }) ∧
    (∀ (respAt : Nat → PollHttp) (w : Nat),
      (∀ j, j < max_attempts w → pollDecision (respAt j) = PollDecision.keepPolling) →
      poll_and_notify_on_completion respAt w =
        { polls := max_attempts w, sleeps := max_attempts w - 1, notifs := [],
          result := Except.error
            ("Polling timed out after " ++ toString w ++ " minutes") }) ∧
    pollDecision PollHttp.noReply = PollDecision.keepPolling ∧
    pollDecision PollHttp.badJson = PollDecision.keepPolling := by
  refine ⟨?_, ?_, ?_, rfl, rfl⟩
  · intro respAt w k d hk hkeep hc
    unfold poll_and_notify_on_completion
    have hm : max_attempts w = k + (max_attempts w - k - 1) + 1 := by omega
    rw [hm]
    refine pollGo_completed respAt _ d k (max_attempts w - k - 1) 0 ?_ ?_
    · intro j hj
      simpa using hkeep j hj
    · simpa using hc
  · intro respAt w k d hk hkeep hc
    unfold poll_and_notify_on_completion
    have hm : max_attempts w = k + (max_attempts w - k - 1) + 1 := by omega
    rw [hm]
    refine pollGo_failed respAt _ d k (max_attempts w - k - 1) 0 ?_ ?_
    · intro j hj
      simpa using hkeep j hj
    · simpa using hc
  · intro respAt w hkeep
    unfold poll_and_notify_on_completion
    refine pollGo_keep respAt _ (max_attempts w) 0 ?_
    intro j hj
    simpa using hkeep j hj

/-- A transaction reported as still pending. -/
def pendingReply : PollHttp :=
  PollHttp.reply
    { success := true, message := "ok"
      data := some
        { transaction_id := "t1", reference := "ref-1", status := "pending"
          amount := none, currency := none, last_updated := 0, metadata := none } }

/-- A transaction reported as completed. -/
def completedStatus : TransactionStatus :=
  { transaction_id := "t1", reference := "ref-1", status := "completed"
    amount := none, currency := none, last_updated := 120, metadata := none }

/-- The status sequence [pending, pending, completed, completed, ...]. -/
def respSeq : Nat → PollHttp := fun n =>
  if n < 2 then pendingReply
  else PollHttp.reply { success := true, message := "ok", data := some completedStatus }

/-- The all-pending status sequence. -/
def respAllPending : Nat → PollHttp := fun _ => pendingReply

/-- C4, witness: with the default 30-minute budget, the sequence
[pending, pending, completed] terminates after exactly 3 polls with exactly
one completion notification, and an all-pending sequence exhausts the
600-attempt budget with zero notifications and a timeout error. -/
theorem C4_witness_sequences :
    poll_and_notify_on_completion respSeq 30 =
      { polls := 3, sleeps := 2, notifs := [Notif.completion "ref-1"],
        result := Except.ok () } ∧
    poll_and_notify_on_completion respAllPending 30 =
      { polls := 600, sleeps := 599, notifs := [],
        result := Except.error "Polling timed out after 30 minutes" } :=
  ⟨C4_poll_loop_terminal_behavior.1 respSeq 30 2 completedStatus (by decide)
      (by decide) (by decide),
   C4_poll_loop_terminal_behavior.2.2.1 respAllPending 30 (fun j _ => rfl)⟩

/-! ### C5 -/

/-- C5: from `Initial`, `withdraw abc USDT` (non-numeric amount) leaves the
session unchanged — in particular still `Initial` — and returns exactly the
format-error message with no gateway call; `withdraw 5 usdt` (when the rate
lookup succeeds) leaves the session in `OfframpConfirmation` with
`pending_amount = 5` and `pending_currency = "USDT"`. -/
theorem C5_withdraw_parse_and_transition (o : Oracle) (s : UserSessions) :
    (handle_commands o "withdraw abc USDT" s =
      (s, ["❌ Invalid amount. Use format: `send [amount] [crypto] to [bank name]`"], [])) ∧
    (∀ rate : ℚ, o.getRate = RateResult.ok rate →
      (handle_commands o "withdraw 5 usdt" s).1.state = UserState.offrampConfirmation ∧
      (handle_commands o "withdraw 5 usdt" s).1.pending_amount = some 5 ∧
      (handle_commands o "withdraw 5 usdt" s).1.pending_currency = some "USDT") := by
  constructor
  · rfl
  · intro rate h
    obtain ⟨ac, ga, gb, gr, vb, lb, sb, oi, tp⟩ := o
    simp only at h
    subst h
    exact ⟨rfl, rfl, rfl⟩

/-- C5, witness at a concrete backend (rate 1500) and a fresh session. -/
theorem C5_witness :
    (handle_commands oBase "withdraw abc USDT" (newSession "u1") =
      (newSession "u1",
       ["❌ Invalid amount. Use format: `send [amount] [crypto] to [bank name]`"], [])) ∧
    (handle_commands oBase "withdraw 5 usdt" (newSession "u1")).1.state =
      UserState.offrampConfirmation ∧
    (handle_commands oBase "withdraw 5 usdt" (newSession "u1")).1.pending_amount = some 5 ∧
    (handle_commands oBase "withdraw 5 usdt" (newSession "u1")).1.pending_currency =
      some "USDT" :=
  ⟨(C5_withdraw_parse_and_transition oBase (newSession "u1")).1,
   (C5_withdraw_parse_and_transition oBase (newSession "u1")).2 1500 rfl⟩

/-! ### C6 -/

/-- C6: `clear_session` always resets the state to `Initial` and nulls all
four pending fields, while leaving the phone identifier, `account_id` and
`controller_address` untouched; and `cancel` from `OfframpConfirmation`
performs exactly this clearing, regardless of the prior field values and of
the backend. -/
theorem C6_clear_session_frame (o : Oracle) (s : UserSessions) :
    clear_session s =
      { s with
          state := UserState.initial
          pending_amount := none
          pending_currency := none
          pending_bank_details := none
          pending_bank_verification := none } ∧
    (clear_session s).phone = s.phone ∧
    (clear_session s).account_id = s.account_id ∧
    (clear_session s).controller_address = s.controller_address ∧
    handle_offramp_confirmation o "cancel" s =
      (clear_session s,
       "❌ *Withdrawal Cancelled*\n\nYour withdrawal request has been cancelled. Type `send [amount] [crypto] to [bank name]` to start again.",
       []) :=
  ⟨rfl, rfl, rfl, rfl, rfl⟩

/-! ### C7 -/

/-- C7: in `BankDetailsEntry`, (1) a message that does not split (on commas,
fields trimmed) into exactly two fields is re-prompted with no state change
and no gateway call; (2) so is one whose account-number field is shorter
than 10 characters or contains a non-digit; (3) only input passing both
checks reaches the bank-verification gateway (the call is issued whenever
the HTTP client construction itself does not fail). -/
theorem C7_bank_details_validation (o : Oracle) (s : UserSessions) (message : String) :
    (∀ parts : List String,
      (splitOnChar ',' message).map strTrim = parts → parts.length ≠ 2 →
      handle_new_bank_details_entry o message s =
        (s, "❌ Invalid format. Please provide bank details in this format:\n\n`Bank Name, Account Number`\n\n*Example:* `Opay, 0123456789`", [])) ∧
    (∀ bank acct : String,
      (splitOnChar ',' message).map strTrim = [bank, acct] →
      (acct.length < 10 ∨ ¬(acct.toList.all Char.isDigit = true)) →
      handle_new_bank_details_entry o message s =
        (s, "❌ Invalid account number. Must be at least 10 digits.", [])) ∧
    (∀ bank acct : String,
      (splitOnChar ',' message).map strTrim = [bank, acct] →
      ¬(acct.length < 10 ∨ ¬(acct.toList.all Char.isDigit = true)) →
      o.verifyBank ≠ VerifyResult.buildErr →
      Event.gatewayCall GatewayOp.verifyBank ∈
        (handle_new_bank_details_entry o message s).2.2) := by
  refine ⟨?_, ?_, ?_⟩
  · intro parts hp hlen
    unfold handle_new_bank_details_entry
    rw [hp]
    rcases parts with _ | ⟨a, _ | ⟨b, _ | ⟨c, rest⟩⟩⟩
    · rfl
    · rfl
    · exact absurd rfl hlen
    · rfl
  · intro bank acct hp hbad
    unfold handle_new_bank_details_entry
    rw [hp]
    simp only [if_pos hbad]
  · intro bank acct hp hgood hbuild
    unfold handle_new_bank_details_entry
    rw [hp]
    simp only [if_neg hgood]
    obtain ⟨ac, ga, gb, gr, vb, lb, sb, oi, tp⟩ := o
    cases vb with
    | buildErr => exact absurd rfl hbuild
    | netErr => exact List.mem_singleton.mpr rfl
    | http404 => exact List.mem_singleton.mpr rfl
    | httpOther st => exact List.mem_singleton.mpr rfl
    | parseErr => exact List.mem_singleton.mpr rfl
    | parsedIncomplete => exact List.mem_singleton.mpr rfl
    | ok v => exact List.mem_singleton.mpr rfl

/-- C7, witness: `Opay,123` (3-digit account) is rejected with no gateway
call; `Opay, 01234567890` (11 digits) passes validation and issues the
verification gateway call. -/
theorem C7_witness :
    (handle_new_bank_details_entry oBase "Opay,123" (newSession "u1") =
      (newSession "u1", "❌ Invalid account number. Must be at least 10 digits.", [])) ∧
    Event.gatewayCall GatewayOp.verifyBank ∈
      (handle_new_bank_details_entry oBase "Opay, 01234567890" (newSession "u1")).2.2 :=
  ⟨(C7_bank_details_validation oBase (newSession "u1") "Opay,123").2.1 "Opay" "123"
      (by decide) (by decide),
   (C7_bank_details_validation oBase (newSession "u1") "Opay, 01234567890").2.2 "Opay"
      "01234567890" (by decide) (by decide) (by decide)⟩

/-! ### C8 -/

/-- C8: the webhook boundary.  A delivery whose status field (SmsStatus,
falling back to MessageStatus) carries a terminal delivery-status value, one
with an empty or whitespace-only body, and one whose normalized sender
(channel prefix stripped, compared with `+` stripped on both sides) matches
the configured bot identity, are each answered with the fixed empty TwiML
acknowledgement and never handed to the dispatcher; every other delivery
carrying a sender is handed to the dispatcher and answered with the same
fixed empty acknowledgement. -/
theorem C8_webhook_filtering (botNumber : String) (form : WebhookForm) :
    (statusFiltered form = true →
      handle_twilio_webhook botNumber form = (WebhookHttpResponse.okXml emptyTwiml, none)) ∧
    (∀ f : String, statusFiltered form = false → form.fromField = some f →
      strTrim (form.body.getD "") = "" →
      handle_twilio_webhook botNumber form = (WebhookHttpResponse.okXml emptyTwiml, none)) ∧
    (∀ f : String, statusFiltered form = false → form.fromField = some f →
      strTrim (form.body.getD "") ≠ "" →
      replaceAll (replaceAll f "whatsapp:" "") "+" "" =
        replaceAll (replaceAll botNumber "whatsapp:" "") "+" "" →
      handle_twilio_webhook botNumber form = (WebhookHttpResponse.okXml emptyTwiml, none)) ∧
    (∀ f : String, statusFiltered form = false → form.fromField = some f →
      strTrim (form.body.getD "") ≠ "" →
      replaceAll (replaceAll f "whatsapp:" "") "+" "" ≠
        replaceAll (replaceAll botNumber "whatsapp:" "") "+" "" →
      handle_twilio_webhook botNumber form =
        (WebhookHttpResponse.okXml emptyTwiml,
         some (replaceAll f "whatsapp:" "", form.body.getD ""))) := by
  refine ⟨?_, ?_, ?_, ?_⟩
  · intro h
    simp [handle_twilio_webhook, h]
  · intro f h1 h2 h3
    simp [handle_twilio_webhook, h1, h2, h3]
  · intro f h1 h2 h3 h4
    simp [handle_twilio_webhook, h1, h2, h3, h4]
  · intro f h1 h2 h3 h4
    simp [handle_twilio_webhook, h1, h2, h3, h4]

/-- C8, witness: a delivered-status callback, a whitespace-only body, a
self-originated message, and an ordinary user message. -/
theorem C8_witness :
    (handle_twilio_webhook "whatsapp:+19990001111"
      { smsStatus := some "delivered", messageStatus := none
        fromField := some "whatsapp:+15550001111", body := some "hi" } =
      (WebhookHttpResponse.okXml emptyTwiml, none)) ∧
    (handle_twilio_webhook "whatsapp:+19990001111"
      { smsStatus := none, messageStatus := none
        fromField := some "whatsapp:+15550001111", body := some "   " } =
      (WebhookHttpResponse.okXml emptyTwiml, none)) ∧
    (handle_twilio_webhook "whatsapp:+19990001111"
      { smsStatus := none, messageStatus := none
        fromField := some "whatsapp:+19990001111", body := some "hello" } =
      (WebhookHttpResponse.okXml emptyTwiml, none)) ∧
    (handle_twilio_webhook "whatsapp:+19990001111"
      { smsStatus := none, messageStatus := none
        fromField := some "whatsapp:+15550001111", body := some "balance" } =
      (WebhookHttpResponse.okXml emptyTwiml, some ("+15550001111", "balance"))) :=
  ⟨(C8_webhook_filtering "whatsapp:+19990001111" _).1 (by decide),
   (C8_webhook_filtering "whatsapp:+19990001111" _).2.1 "whatsapp:+15550001111"
     (by decide) rfl (by decide),
   (C8_webhook_filtering "whatsapp:+19990001111" _).2.2.1 "whatsapp:+19990001111"
     (by decide) rfl (by decide) (by decide),
   (C8_webhook_filtering "whatsapp:+19990001111" _).2.2.2 "whatsapp:+15550001111"
     (by decide) rfl (by decide) (by decide)⟩

/-! ### C9 -/

/-- In the `Initial` state the dispatcher runs `handle_commands`. -/
theorem dispatch_initial (o : Oracle) (t : String) (s : UserSessions)
    (h : s.state = UserState.initial) :
    dispatchMessage o t s = some (handle_commands o t s) := by
  unfold dispatchMessage
  rw [h]

/-- C9: on `create` in state `Initial`, the stored session transitions to
`AccountCreation` (and nothing else: the dispatch emits only the spawn event
and no reply), while the spawned task runs `handle_account_creation` on a
clone taken after that transition; when provisioning succeeds, the clone
ends with `controller_address` set and state reset to `Initial`, but the
live session in the store keeps state `AccountCreation` and its original
`controller_address` — the clone's mutations are discarded. -/
theorem C9_create_fire_and_forget
    (o : Oracle) (user_phone : String) (store : SessionMap) (s : UserSessions)
    (addr : String)
    (hs : (mapLookup store user_phone).getD (newSession user_phone) = s)
    (hstate : s.state = UserState.initial)
    (hok : o.accountCreation = ACResult.ok addr) :
    handle_message o user_phone "create" store =
      some (mapInsert store user_phone { s with state := UserState.accountCreation },
        [Event.spawnTask], []) ∧
    mapLookup (mapInsert store user_phone { s with state := UserState.accountCreation })
        user_phone = some { s with state := UserState.accountCreation } ∧
    (handle_account_creation o "create" { s with state := UserState.accountCreation }).1 =
      { s with state := UserState.initial, controller_address := some addr } ∧
    ({ s with state := UserState.accountCreation }).controller_address =
      s.controller_address := by
  subst hs
  refine ⟨?_, mapLookup_mapInsert_self store user_phone _, ?_, rfl⟩
  · unfold handle_message
    simp only []
    rw [dispatch_initial o "create" _ hstate]
    rfl
  · obtain ⟨ac, ga, gb, gr, vb, lb, sb, oi, tp⟩ := o
    simp only at hok
    subst hok
    rfl

/-- C9, witness: a fresh user and a successful provisioning backend. -/
theorem C9_witness :
    handle_message oBase "u1" "create" [] =
      some ([("u1", { newSession "u1" with state := UserState.accountCreation })],
        [Event.spawnTask], []) ∧
    mapLookup [("u1", { newSession "u1" with state := UserState.accountCreation })] "u1" =
      some { newSession "u1" with state := UserState.accountCreation } ∧
    (handle_account_creation oBase "create"
        { newSession "u1" with state := UserState.accountCreation }).1 =
      { newSession "u1" with
          state := UserState.initial
          controller_address := some "0xCTRL" } ∧
    ({ newSession "u1" with state := UserState.accountCreation }).controller_address =
      (newSession "u1").controller_address :=
  C9_create_fire_and_forget oBase "u1" [] (newSession "u1") "0xCTRL" rfl rfl rfl

/-! ### C10 -/

/-- C10: the reconciliation poll loop with a wait budget of `w` minutes is
bounded by `(w * 60) / 3` attempts (so it always terminates), with one
2-second sleep between consecutive attempts only; for the spawned task's
default 30-minute budget this is at most 600 attempts, so the total
inter-poll sleep time is at most 1198 seconds — about 20 minutes, not 30. -/
theorem C10_poll_budget_bounds (respAt : Nat → PollHttp) (w : Nat) :
    max_attempts w = w * 60 / 3 ∧
    (poll_and_notify_on_completion respAt w).polls ≤ max_attempts w ∧
    (poll_and_notify_on_completion respAt w).sleeps ≤ max_attempts w - 1 ∧
    max_attempts 30 = 600 ∧
    (start_transaction_polling_task respAt).polls ≤ 600 ∧
    poll_interval_secs * (start_transaction_polling_task respAt).sleeps ≤ 1198 := by
  obtain ⟨h1, h2⟩ := pollGo_le respAt
    ("Polling timed out after " ++ toString w ++ " minutes") (max_attempts w) 0
  obtain ⟨h3, h4⟩ := pollGo_le respAt
    ("Polling timed out after " ++ toString 30 ++ " minutes") (max_attempts 30) 0
  refine ⟨rfl, h1, h2, rfl, h3, ?_⟩
  have h5 : (start_transaction_polling_task respAt).sleeps ≤ 599 := h4
  show 2 * (start_transaction_polling_task respAt).sleeps ≤ 1198
  omega

end KharonWhatsApp
